import Mathlib

/-!
Verification of the TalentFlow hiring-management SPA against its
natural-language specification.

The development shallowly embeds the parts of the TypeScript source that the
spec's claims are about:

* the conditional-visibility evaluator `shouldShowQuestion` and the per-question
  validation of `src/pages/assessments/AssessmentFormPage.tsx`;
* the optimistic stage-update / rollback logic of
  `src/pages/candidates/KanbanBoardPage.tsx`;
* the jobs-list drag reorder flow of the jobs page (`JobsPage`);
* the client-side candidate filtering of `CandidatesPage`;
* the MSW request handlers of `src/mocks/handlers.ts` (simulated-error
  branches, slug-uniqueness checks).

JavaScript runtime values that flow through the `answers : Record<string, any>`
map are modelled by the inductive `JSVal`; numbers are modelled by `Int`
(every number the application stores in an answer or a condition value is an
integer literal or a string), while the `Number(...)` coercion used by the
`greater_than` / `less_than` operators returns an `Option JsNum` — an exact
decimal fraction — with `none` playing the role of `NaN`.  Database helpers
from `src/lib/db.ts` are taken as universally quantified parameters by the
handler functions whose claims do not depend on their internals — those
theorems then hold in particular for the real `dbHelpers` — while
`dbHelpers.createJob` and `dbHelpers.updateJob`, on which the slug-uniqueness
claim does depend, are embedded directly from `db.ts`.
-/

namespace Talentflow

/-- JS runtime values as they occur in the assessment answers map and in
condition values: `undefined`, `null`, numbers, strings and arrays. -/
inductive JSVal where
  | vUndefined : JSVal
  | vnull : JSVal
  | vnum : Int → JSVal
  | vstr : String → JSVal
  | varr : List JSVal → JSVal

/-- JS truthiness (`!answer` negated): `undefined`, `null`, `0` and the empty
string are falsy; every array (including the empty one) is truthy. -/
def truthy : JSVal → Bool
  | .vUndefined => false
  | .vnull => false
  | .vnum n => n != 0
  | .vstr s => s != ""
  | .varr _ => true

/-- JS strict equality `===` (also the element comparison of
`Array.prototype.includes`) restricted to the values of `JSVal`.  Two distinct
array objects are never `===` in JS, so the array/array case is `false`. -/
def jsEq : JSVal → JSVal → Bool
  | .vUndefined, .vUndefined => true
  | .vnull, .vnull => true
  | .vnum a, .vnum b => a == b
  | .vstr a, .vstr b => a == b
  | _, _ => false

mutual
/-- Rendering of an array element inside `Array.prototype.toString`:
`undefined` and `null` render as the empty string, nested arrays flatten. -/
def jsElemToString : JSVal → String
  | .vUndefined => ""
  | .vnull => ""
  | .vnum n => toString n
  | .vstr s => s
  | .varr xs => jsArrToString xs

/-- JS `Array.prototype.toString`, i.e. `join(",")` over the rendered
elements. -/
def jsArrToString : List JSVal → String
  | [] => ""
  | [x] => jsElemToString x
  | x :: y :: rest => jsElemToString x ++ "," ++ jsArrToString (y :: rest)
end

/-- JS `String(...)` coercion on the values of `JSVal`. -/
def jsToString : JSVal → String
  | .vUndefined => "undefined"
  | .vnull => "null"
  | .vnum n => toString n
  | .vstr s => s
  | .varr xs => jsArrToString xs

/-- Value of a list of decimal digit characters. -/
def parseDigits (cs : List Char) : Nat :=
  cs.foldl (fun n c => n * 10 + (c.toNat - 48)) 0

/-- A rational number as an unreduced fraction, modelling the (exact decimal)
result of the JS `Number(...)` coercion; the denominator is a power of ten and
always positive, and comparisons cross-multiply, so no normalisation is
needed. -/
structure JsNum where
  num : Int
  den : Nat

/-- Embedding of an integer into `JsNum`. -/
def JsNum.ofInt (n : Int) : JsNum := { num := n, den := 1 }

/-- Comparison of two `JsNum` fractions by cross-multiplication (both
denominators are positive). -/
def jsNumLt (a b : JsNum) : Bool :=
  decide (a.num * (b.den : Int) < b.num * (a.den : Int))

/-- JS whitespace for the purposes of `String.prototype.trim` as it is hit by
`Number(string)`. -/
def isJsSpace (c : Char) : Bool :=
  c == ' ' || c == '\t' || c == '\n' || c == '\r'

/-- Leading and trailing whitespace removal over a character list. -/
def trimChars (cs : List Char) : List Char :=
  ((cs.dropWhile isJsSpace).reverse.dropWhile isJsSpace).reverse

/-- Model of the JS `Number(string)` coercion for the shapes of numeric
strings the application produces: optional sign, decimal digits with an
optional fractional part; a blank string coerces to `0`; anything else
(including exponents and hex literals, which the app never produces) is `NaN`,
modelled as `none`. -/
def parseJsNumber (s : String) : Option JsNum :=
  let t := trimChars s.data
  if t.isEmpty then some (JsNum.ofInt 0)
  else
    let (sgn, cs) :=
      match t with
      | '-' :: rest => ((-1 : Int), rest)
      | '+' :: rest => ((1 : Int), rest)
      | rest => ((1 : Int), rest)
    let ds := cs.takeWhile Char.isDigit
    let rest := cs.dropWhile Char.isDigit
    match rest with
    | [] => if ds.isEmpty then none else some (JsNum.ofInt (sgn * (parseDigits ds : Int)))
    | '.' :: fs =>
      if fs.all Char.isDigit && !(ds.isEmpty && fs.isEmpty) then
        some { num := sgn * ((parseDigits ds : Int) * ((10 ^ fs.length : Nat) : Int) +
                 (parseDigits fs : Int)),
               den := 10 ^ fs.length }
      else none
    | _ => none

/-- JS `Number(...)` coercion on `JSVal`; `none` is `NaN`.  An array coerces
through its string rendering, exactly as in JS. -/
def toNumber : JSVal → Option JsNum
  | .vUndefined => none
  | .vnull => some (JsNum.ofInt 0)
  | .vnum n => some (JsNum.ofInt n)
  | .vstr s => parseJsNumber s
  | .varr xs => parseJsNumber (jsArrToString xs)

/-- JS `>` between two `Number(...)` results: any comparison with `NaN` is
false. -/
def optNumGt : Option JsNum → Option JsNum → Bool
  | some a, some b => jsNumLt b a
  | _, _ => false

/-- JS `<` between two `Number(...)` results: any comparison with `NaN` is
false. -/
def optNumLt : Option JsNum → Option JsNum → Bool
  | some a, some b => jsNumLt a b
  | _, _ => false

/-- Matching of a pattern against the front of a character list. -/
def charsStartWith : List Char → List Char → Bool
  | _, [] => true
  | [], _ :: _ => false
  | c :: cs, d :: ds => c == d && charsStartWith cs ds

/-- Substring search over character lists: the pattern occurs at some
position. -/
def charsContain : List Char → List Char → Bool
  | [], pat => pat.isEmpty
  | c :: rest, pat => charsStartWith (c :: rest) pat || charsContain rest pat

/-- JS `String.prototype.includes`: the empty needle is contained in every
string. -/
def jsIncludes (s sub : String) : Bool :=
  charsContain s.data sub.data

/-- JS `String.prototype.toLowerCase` (ASCII, which covers every string the
application compares). -/
def strLower (s : String) : String :=
  String.mk (s.data.map Char.toLower)

/-- The five comparison operators of `ConditionalLogic` in
`src/types/index.ts`.  The operator union type is closed, so the `default`
branch of the evaluator's `switch` is unreachable and has no counterpart
here. -/
inductive CondOp where
  | equals : CondOp
  | not_equals : CondOp
  | contains : CondOp
  | greater_than : CondOp
  | less_than : CondOp
deriving DecidableEq, Repr

/-- One entry of a question's `conditionalLogic` array
(`ConditionalLogic` in `src/types/index.ts`). -/
structure Condition where
  questionId : String
  operator : CondOp
  value : JSVal

/-- The six question types of `src/types/index.ts`. -/
inductive QuestionType where
  | single_choice : QuestionType
  | multi_choice : QuestionType
  | short_text : QuestionType
  | long_text : QuestionType
  | numeric : QuestionType
  | file_upload : QuestionType
deriving DecidableEq, Repr

/-- A question of an assessment section (`Question` in
`src/types/index.ts`); UI-only fields (`description`) are omitted. -/
structure Question where
  id : String
  qtype : QuestionType
  text : String
  required : Bool
  order : Nat
  options : Option (List String) := none
  minValue : Option Int := none
  maxValue : Option Int := none
  maxLength : Option Nat := none
  conditionalLogic : Option (List Condition) := none

/-- The `answers` record of `AssessmentFormPage`; a key that is absent reads
as `undefined`. -/
abbrev AnswerMap : Type := List (String × JSVal)

/-- JS property read `answers[questionId]`: the stored value, or `undefined`
when no answer is recorded. -/
def getAnswer (answers : AnswerMap) (questionId : String) : JSVal :=
  match List.lookup questionId answers with
  | some v => v
  | none => .vUndefined

/-- One condition of `question.conditionalLogic.every((condition) => ...)` in
`shouldShowQuestion` (`AssessmentFormPage.tsx` lines 89-122): a falsy recorded
answer fails the condition before the operator `switch` is reached. -/
def evalCondition (answers : AnswerMap) (condition : Condition) : Bool :=
  let answer := getAnswer answers condition.questionId
  if truthy answer = false then
    false
  else
    match condition.operator with
    | .equals =>
      match answer with
      | .varr xs => xs.any fun x => jsEq x condition.value
      | _ => jsEq answer condition.value
    | .not_equals =>
      match answer with
      | .varr xs => !(xs.any fun x => jsEq x condition.value)
      | _ => !(jsEq answer condition.value)
    | .contains =>
      match answer with
      | .varr xs => xs.any fun x => jsEq x condition.value
      | _ => jsIncludes (strLower (jsToString answer)) (strLower (jsToString condition.value))
    | .greater_than => optNumGt (toNumber answer) (toNumber condition.value)
    | .less_than => optNumLt (toNumber answer) (toNumber condition.value)

/-- `shouldShowQuestion` of `AssessmentFormPage.tsx` (lines 84-123): a
question with an absent or empty `conditionalLogic` list is always shown;
otherwise every condition must pass `evalCondition`. -/
def shouldShowQuestion (answers : AnswerMap) (question : Question) : Bool :=
  match question.conditionalLogic with
  | none => true
  | some conds =>
    if conds.length == 0 then true
    else conds.all (evalCondition answers)

/-! ### Claim-side definitions for the conditional-visibility evaluator

`operatorHolds` and `visibleByClaimC1` are written from the wording of claim
C1, which describes a condition as decided by exactly one of the five
operators and says nothing about falsy recorded answers.  The amended variant
adds the falsy-answer guard that the implementation applies before the
operator `switch`. -/

/-- Operator semantics exactly as claim C1 words them: `equals` is equality
(membership for an array answer), `not_equals` its negation (non-membership
for arrays), `contains` is array membership or case-insensitive substring
containment of the stringified values, `greater_than` / `less_than` compare
the numeric coercions. -/
def operatorHolds (answer : JSVal) (op : CondOp) (value : JSVal) : Bool :=
  match op with
  | .equals =>
    match answer with
    | .varr xs => xs.any fun x => jsEq x value
    | _ => jsEq answer value
  | .not_equals =>
    match answer with
    | .varr xs => !(xs.any fun x => jsEq x value)
    | _ => !(jsEq answer value)
  | .contains =>
    match answer with
    | .varr xs => xs.any fun x => jsEq x value
    | _ => jsIncludes (strLower (jsToString answer)) (strLower (jsToString value))
  | .greater_than => optNumGt (toNumber answer) (toNumber value)
  | .less_than => optNumLt (toNumber answer) (toNumber value)

/-- Visibility exactly as claim C1 states it: shown when `conditionalLogic`
is absent or empty, or when every condition holds under `operatorHolds`. -/
def visibleByClaimC1 (answers : AnswerMap) (question : Question) : Bool :=
  match question.conditionalLogic with
  | none => true
  | some conds =>
    conds.all fun c => operatorHolds (getAnswer answers c.questionId) c.operator c.value

/-- Claim C1 amended by the falsy-answer guard: a condition additionally
requires the recorded answer to be truthy, whatever the operator. -/
def visibleByClaimC1Amended (answers : AnswerMap) (question : Question) : Bool :=
  match question.conditionalLogic with
  | none => true
  | some conds =>
    conds.all fun c =>
      truthy (getAnswer answers c.questionId) &&
        operatorHolds (getAnswer answers c.questionId) c.operator c.value

/-! ### Per-question validation and submission (`AssessmentFormPage.tsx`) -/

/-- The emptiness test of the required-field check (line 131): literally
`value === undefined || value === null || value === "" ||
(Array.isArray(value) && value.length === 0)`. -/
def requiredEmpty : JSVal → Bool
  | .vUndefined => true
  | .vnull => true
  | .vnum _ => false
  | .vstr s => s == ""
  | .varr xs => xs.isEmpty

/-- The guard `value !== undefined && value !== ""` of the numeric check
(line 135), negated. -/
def isUndefinedOrEmptyStr : JSVal → Bool
  | .vUndefined => true
  | .vstr s => s == ""
  | _ => false

/-- The `maxValue` comparison of the numeric validation (lines 143-145). -/
def numericMaxError (question : Question) (n : JsNum) : Option String :=
  match question.maxValue with
  | some mx =>
    if jsNumLt (JsNum.ofInt mx) n then
      some ("Value must be at most " ++ toString mx)
    else none
  | none => none

/-- The `minValue` then `maxValue` comparisons of the numeric validation
(lines 140-145). -/
def numericMinMaxError (question : Question) (n : JsNum) : Option String :=
  match question.minValue with
  | some mn =>
    if jsNumLt n (JsNum.ofInt mn) then
      some ("Value must be at least " ++ toString mn)
    else numericMaxError question n
  | none => numericMaxError question n

/-- The numeric block of `validateQuestion` (lines 135-146): only for numeric
questions with a value that is neither `undefined` nor the empty string;
`NaN` yields the invalid-number error, then the range checks run. -/
def numericError (question : Question) (value : JSVal) : Option String :=
  if question.qtype == .numeric && !(isUndefinedOrEmptyStr value) then
    match toNumber value with
    | none => some "Please enter a valid number"
    | some n => numericMinMaxError question n
  else none

/-- JS truthiness of the optional `maxLength` field: `0` and `undefined` are
falsy. -/
def maxLengthTruthy : Option Nat → Bool
  | some m => m != 0
  | none => false

/-- The text-length block of `validateQuestion` (lines 148-152): only for
text questions with a truthy `maxLength` and a truthy value. -/
def lengthError (question : Question) (value : JSVal) : Option String :=
  if (question.qtype == .short_text || question.qtype == .long_text) &&
      maxLengthTruthy question.maxLength && truthy value then
    match question.maxLength with
    | some m =>
      if decide (m < (jsToString value).data.length) then
        some ("Maximum " ++ toString m ++ " characters allowed")
      else none
    | none => none
  else none

/-- `validateQuestion` of `AssessmentFormPage.tsx` (lines 126-155): hidden
questions are never validated; then the required, numeric and length checks
run in source order. -/
def validateQuestion (answers : AnswerMap) (question : Question) (value : JSVal) :
    Option String :=
  if shouldShowQuestion answers question = false then none
  else if question.required && requiredEmpty value then some "This field is required"
  else
    match numericError question value with
    | some e => some e
    | none => lengthError question value

/-- A section of an assessment (`AssessmentSection` in
`src/types/index.ts`). -/
structure AssessmentSection where
  id : String
  title : String
  questions : List Question
  order : Nat

/-- An assessment (`Assessment` in `src/types/index.ts`). -/
structure Assessment where
  id : String
  jobId : String
  title : String
  sections : List AssessmentSection

/-- The error accumulation of `validateCurrentSection` (lines 164-171) over
one section: only questions passing `shouldShowQuestion` are validated, each
at its recorded answer. -/
def sectionErrors (answers : AnswerMap) (sec : AssessmentSection) :
    List (String × String) :=
  sec.questions.foldl
    (fun errs question =>
      if shouldShowQuestion answers question then
        match validateQuestion answers question (getAnswer answers question.id) with
        | some e => errs ++ [(question.id, e)]
        | none => errs
      else errs)
    []

/-- `validateCurrentSection` (lines 158-175).  The source indexes
`assessment.sections[currentSectionIndex]` unconditionally; an out-of-range
index (which the page never produces) is modelled as failing validation. -/
def validateCurrentSection (assessment : Assessment) (currentSectionIndex : Nat)
    (answers : AnswerMap) : Bool :=
  match assessment.sections.get? currentSectionIndex with
  | some sec => (sectionErrors answers sec).isEmpty
  | none => false

/-- The `allErrors` accumulation of `handleSubmit` (lines 229-239) over every
section of the assessment. -/
def collectAllErrors (assessment : Assessment) (answers : AnswerMap) :
    List (String × String) :=
  assessment.sections.foldl (fun acc sec => acc ++ sectionErrors answers sec) []

/-- The body `handleSubmit` passes to `submitMutation.mutate` (lines 247-254);
the generated `candidateId` and timestamp are omitted. -/
structure SubmitPayload where
  jobId : String
  candidateName : String
  candidateEmail : String
  answers : AnswerMap

/-- `handleSubmit` (lines 223-255): the current section is validated, then
all sections; when no errors remain the whole `answers` record is submitted
verbatim. -/
def handleSubmit (assessment : Assessment) (currentSectionIndex : Nat)
    (answers : AnswerMap) (jobId candidateName candidateEmail : String) :
    Option SubmitPayload :=
  if validateCurrentSection assessment currentSectionIndex answers = false then none
  else if (collectAllErrors assessment answers).isEmpty = false then none
  else
    some { jobId := jobId, candidateName := candidateName,
           candidateEmail := candidateEmail, answers := answers }

/-! ### Helper lemmas -/

/-- Congruence for `List.all` under a pointwise equal predicate. -/
theorem list_all_eq_of_forall {α : Type} (l : List α) (f g : α → Bool)
    (h : ∀ x ∈ l, f x = g x) : l.all f = l.all g := by
  induction l with
  | nil => rfl
  | cons a t ih =>
    simp only [List.all_cons]
    rw [h a (List.mem_cons_self a t), ih fun x hx => h x (List.mem_cons_of_mem a hx)]

/-- One condition of the evaluator is the claimed operator semantics guarded
by JS truthiness of the recorded answer. -/
theorem evalCondition_eq_guarded_operatorHolds (answers : AnswerMap) (c : Condition) :
    evalCondition answers c =
      (truthy (getAnswer answers c.questionId) &&
        operatorHolds (getAnswer answers c.questionId) c.operator c.value) := by
  unfold evalCondition operatorHolds
  cases h : truthy (getAnswer answers c.questionId) <;> simp [h]

/-- The evaluator reads the answers map only at the question id of the
condition at hand. -/
theorem evalCondition_depends_only_on_answer (answers1 answers2 : AnswerMap)
    (c : Condition)
    (h : getAnswer answers1 c.questionId = getAnswer answers2 c.questionId) :
    evalCondition answers1 c = evalCondition answers2 c := by
  unfold evalCondition
  rw [h]

/-- A falsy recorded answer makes a condition fail whatever its operator and
value. -/
theorem evalCondition_eq_false_of_falsy (answers : AnswerMap) (c : Condition)
    (hfalsy : truthy (getAnswer answers c.questionId) = false) :
    evalCondition answers c = false := by
  unfold evalCondition
  simp [hfalsy]

/-! ### Claim C1 -/

/-- Concrete answers map for the claim C1 counterexample: question `q1` was
answered with the empty string. -/
def c1CexAnswers : AnswerMap := [("q1", .vstr "")]

/-- Concrete question for the claim C1 counterexample: shown when the answer
to `q1` differs from `"yes"`. -/
def c1CexQuestion : Question :=
  { id := "q2", qtype := .short_text, text := "Follow-up", required := false, order := 1,
    conditionalLogic := some
      [{ questionId := "q1", operator := .not_equals, value := .vstr "yes" }] }

/-- C1, counterexample: with the answer `""` recorded for `q1` and the single
condition `q1 not_equals "yes"`, the claim's operator semantics show the
question (the empty string differs from `"yes"`), but the evaluator hides it:
the falsy-answer guard at line 92 of `AssessmentFormPage.tsx` fails every
condition before the operator is consulted. -/
theorem claimC1_counterexample :
    visibleByClaimC1 c1CexAnswers c1CexQuestion = true ∧
      shouldShowQuestion c1CexAnswers c1CexQuestion = false :=
  ⟨by decide, by decide⟩

/-- C1 (amended): the evaluator shows a question exactly when its
`conditionalLogic` list is absent or empty, or when every condition holds,
where a condition requires the recorded answer to be truthy (not `undefined`,
`null`, `""` or `0`) and then is decided by exactly one of the five operators
with the semantics the claim states. -/
theorem shouldShowQuestion_eq_claimC1Amended (answers : AnswerMap) (question : Question) :
    shouldShowQuestion answers question = visibleByClaimC1Amended answers question := by
  unfold shouldShowQuestion visibleByClaimC1Amended
  cases hq : question.conditionalLogic with
  | none => rfl
  | some conds =>
    cases conds with
    | nil => rfl
    | cons c cs =>
      exact list_all_eq_of_forall _ _ _ fun x _ =>
        evalCondition_eq_guarded_operatorHolds answers x

/-! ### Claim C4 -/

/-- C4: visibility of a question depends only on the entries of the answers
map at the question ids referenced by its own conditions; two answers maps
agreeing there give the same visibility.  Nothing else about the referenced
question — in particular its own visibility — enters the computation. -/
theorem shouldShowQuestion_depends_only_on_referenced_answers
    (answers1 answers2 : AnswerMap) (question : Question)
    (h : ∀ c ∈ question.conditionalLogic.getD [],
      getAnswer answers1 c.questionId = getAnswer answers2 c.questionId) :
    shouldShowQuestion answers1 question = shouldShowQuestion answers2 question := by
  unfold shouldShowQuestion
  cases hq : question.conditionalLogic with
  | none => rfl
  | some conds =>
    rw [hq] at h
    simp only [Option.getD_some] at h
    cases conds with
    | nil => rfl
    | cons c cs =>
      exact list_all_eq_of_forall _ _ _ fun x hx =>
        evalCondition_depends_only_on_answer answers1 answers2 x (h x hx)

/-- Concrete inputs for the C4 witness: the two answers maps agree on the
referenced id `q1` but differ elsewhere. -/
def c4Question : Question :=
  { id := "q2", qtype := .single_choice, text := "w", required := false, order := 1,
    conditionalLogic := some
      [{ questionId := "q1", operator := .equals, value := .vstr "yes" }] }

/-- First answers map of the C4 witness. -/
def c4Answers1 : AnswerMap := [("q1", .vstr "yes"), ("other", .vstr "x")]

/-- Second answers map of the C4 witness. -/
def c4Answers2 : AnswerMap := [("q1", .vstr "yes"), ("unrelated", .vnum 7)]

/-- Witness for C4 at concrete inputs. -/
theorem shouldShowQuestion_depends_only_witness :
    shouldShowQuestion c4Answers1 c4Question = shouldShowQuestion c4Answers2 c4Question :=
  shouldShowQuestion_depends_only_on_referenced_answers c4Answers1 c4Answers2 c4Question
    (by
      intro c hc
      simp only [c4Question, Option.getD_some, List.mem_singleton] at hc
      subst hc
      rfl)

/-! ### Claim C8 -/

/-- C8: for a question with at least one condition, a missing or falsy
recorded answer (`undefined`, `""`, the number `0`, and also `null`) at any
condition's referenced id hides the question regardless of that condition's
operator and value. -/
theorem shouldShowQuestion_falsy_answer_hides
    (answers : AnswerMap) (question : Question) (conds : List Condition) (c : Condition)
    (hq : question.conditionalLogic = some conds) (hc : c ∈ conds)
    (hfalsy : truthy (getAnswer answers c.questionId) = false) :
    shouldShowQuestion answers question = false := by
  unfold shouldShowQuestion
  rw [hq]
  cases conds with
  | nil => cases hc
  | cons d ds =>
    show (d :: ds).all (evalCondition answers) = false
    cases hall : (d :: ds).all (evalCondition answers) with
    | false => rfl
    | true =>
      have hcond := List.all_eq_true.mp hall c hc
      rw [evalCondition_eq_false_of_falsy answers c hfalsy] at hcond
      cases hcond

/-- Concrete question for the C8 witness: a `less_than 10` condition on the
unanswered question `prev`, which would hold for a numeric reading of a
missing answer if the guard did not fire first. -/
def c8Question : Question :=
  { id := "q9", qtype := .long_text, text := "w", required := false, order := 3,
    conditionalLogic := some
      [{ questionId := "prev", operator := .less_than, value := .vstr "10" }] }

/-- Witness for C8 at concrete inputs: no answer is recorded at all, and the
question is hidden. -/
theorem shouldShowQuestion_falsy_answer_hides_witness :
    shouldShowQuestion [] c8Question = false :=
  shouldShowQuestion_falsy_answer_hides []
    c8Question
    [{ questionId := "prev", operator := .less_than, value := .vstr "10" }]
    { questionId := "prev", operator := .less_than, value := .vstr "10" }
    rfl (List.mem_singleton.mpr rfl) rfl

/-! ### Claim C9 -/

/-- C9: a hidden question is never validated — `validateQuestion` returns no
error for it whatever value is passed — yet a successful submission carries
the whole answers record verbatim, so an answer previously recorded for the
hidden question is retained and submitted. -/
theorem hidden_question_skips_validation_but_answer_submitted
    (answers : AnswerMap) (question : Question) (value : JSVal)
    (hhidden : shouldShowQuestion answers question = false) :
    validateQuestion answers question value = none ∧
      ∀ (assessment : Assessment) (idx : Nat) (jobId nm em : String)
        (payload : SubmitPayload),
        handleSubmit assessment idx answers jobId nm em = some payload →
          payload.answers = answers ∧
          getAnswer payload.answers question.id = getAnswer answers question.id := by
  constructor
  · unfold validateQuestion
    simp [hhidden]
  · intro assessment idx jobId nm em payload hp
    unfold handleSubmit at hp
    by_cases h1 : validateCurrentSection assessment idx answers = false
    · simp [h1] at hp
    · simp only [h1, if_false] at hp
      by_cases h2 : (collectAllErrors assessment answers).isEmpty = false
      · simp [h2] at hp
      · simp only [h2, if_false] at hp
        cases hp
        exact ⟨rfl, rfl⟩

/-- Concrete answers map for the C9 witness: the hidden question `q2` has a
stale recorded answer. -/
def c9Answers : AnswerMap := [("q2", .vstr "stale answer")]

/-- Concrete hidden question for the C9 witness: required, but its condition
references the unanswered question `q1`. -/
def c9Question : Question :=
  { id := "q2", qtype := .short_text, text := "w", required := true, order := 0,
    conditionalLogic := some
      [{ questionId := "q1", operator := .equals, value := .vstr "yes" }] }

/-- Concrete single-section assessment for the C9 witness. -/
def c9Assessment : Assessment :=
  { id := "a1", jobId := "job1", title := "T",
    sections := [{ id := "s1", title := "S", questions := [c9Question], order := 0 }] }

/-- The payload the C9 witness submission produces. -/
def c9Payload : SubmitPayload :=
  { jobId := "job1", candidateName := "Ada", candidateEmail := "ada@example.com",
    answers := c9Answers }

/-- Witness for C9 at concrete inputs: the required question `q2` is hidden,
is not validated, the submission succeeds, and the stale answer recorded for
`q2` is part of the submitted payload. -/
theorem hidden_question_skips_validation_witness :
    shouldShowQuestion c9Answers c9Question = false ∧
      validateQuestion c9Answers c9Question (.vstr "stale answer") = none ∧
      handleSubmit c9Assessment 0 c9Answers "job1" "Ada" "ada@example.com" =
        some c9Payload ∧
      c9Payload.answers = c9Answers ∧
      getAnswer c9Payload.answers c9Question.id = getAnswer c9Answers c9Question.id :=
  ⟨by decide,
   (hidden_question_skips_validation_but_answer_submitted c9Answers c9Question
      (.vstr "stale answer") (by decide)).1,
   by rfl,
   ((hidden_question_skips_validation_but_answer_submitted c9Answers c9Question
      (.vstr "stale answer") (by decide)).2 c9Assessment 0 "job1" "Ada"
      "ada@example.com" c9Payload (by rfl)).1,
   ((hidden_question_skips_validation_but_answer_submitted c9Answers c9Question
      (.vstr "stale answer") (by decide)).2 c9Assessment 0 "job1" "Ada"
      "ada@example.com" c9Payload (by rfl)).2⟩

/-! ### Candidates: data model (`src/types/index.ts`) -/

/-- The six pipeline stages of `CandidateStage`. -/
inductive CandidateStage where
  | applied : CandidateStage
  | screen : CandidateStage
  | tech : CandidateStage
  | offer : CandidateStage
  | hired : CandidateStage
  | rejected : CandidateStage
deriving DecidableEq, Repr

/-- The string value of a stage as it appears in the TS union type. -/
def stageToString : CandidateStage → String
  | .applied => "applied"
  | .screen => "screen"
  | .tech => "tech"
  | .offer => "offer"
  | .hired => "hired"
  | .rejected => "rejected"

/-- A note attached to a candidate (`Note` in `src/types/index.ts`). -/
structure CandidateNote where
  id : String
  content : String
  mentions : List String
  authorId : String
  authorName : String
  createdAt : Int
deriving DecidableEq, Repr

/-- A candidate (`Candidate` in `src/types/index.ts`); dates are modelled as
integer timestamps. -/
structure Candidate where
  id : String
  name : String
  email : String
  phone : String
  jobId : String
  stage : CandidateStage
  resume : String
  notes : List CandidateNote
  createdAt : Int
  updatedAt : Int
deriving DecidableEq, Repr

/-- The `CandidatesResponse` shape cached under the `candidates-all` query
key (`KanbanBoardPage.tsx` lines 24-27). -/
structure CandidatesResponse where
  data : List Candidate
  total : Nat
deriving DecidableEq, Repr

/-! ### Kanban board: optimistic stage update and rollback
(`KanbanBoardPage.tsx`) -/

/-- The per-candidate function of the optimistic cache update
(`updateStageMutation.onMutate`, lines 155-157): the candidate whose id
matches gets the new stage, every other candidate is returned as-is. -/
def applyStageUpdateOne (id : String) (stage : CandidateStage) (c : Candidate) :
    Candidate :=
  if c.id == id then { c with stage := stage } else c

/-- The optimistic `data` array of `onMutate`: a `map` of
`applyStageUpdateOne` over the cached candidates. -/
def applyStageUpdate (cands : List Candidate) (id : String) (stage : CandidateStage) :
    List Candidate :=
  cands.map (applyStageUpdateOne id stage)

/-- `updateStageMutation.onMutate` (lines 145-161): the present cache value
is snapshotted into the mutation context, and, when a cache value exists, the
cache is replaced by the optimistically updated response.  Returns the new
cache paired with the context snapshot. -/
def kanbanOnMutate (cache : Option CandidatesResponse) (id : String)
    (stage : CandidateStage) :
    Option CandidatesResponse × Option CandidatesResponse :=
  let previousCandidates := cache
  match previousCandidates with
  | some prev =>
    (some { prev with data := applyStageUpdate prev.data id stage }, previousCandidates)
  | none => (cache, previousCandidates)

/-- `updateStageMutation.onError` (lines 163-168): when the context carries a
snapshot the cache is set back to it, otherwise the cache is left alone. -/
def kanbanOnError (cache : Option CandidatesResponse)
    (context : Option CandidatesResponse) : Option CandidatesResponse :=
  match context with
  | some prev => some prev
  | none => cache

/-- The cache evolution of a stage change whose PATCH request fails:
`onMutate` runs, then `onError` restores from the context. -/
def kanbanStageChangeFailFlow (cache : Option CandidatesResponse) (id : String)
    (stage : CandidateStage) : Option CandidatesResponse :=
  kanbanOnError (kanbanOnMutate cache id stage).1 (kanbanOnMutate cache id stage).2

/-- The candidate list the drag handler reads from the cache (`data?.data`,
an absent cache reading as no candidates). -/
def cachedData (cache : Option CandidatesResponse) : List Candidate :=
  match cache with
  | some d => d.data
  | none => []

/-- `handleDragEnd` (lines 206-221), optimistic phase: dropping outside any
column does nothing; otherwise the dragged candidate is looked up in the
cache, and only when it exists and its stage differs from the target column
does the mutation fire, whose `onMutate` rewrites the cache. -/
def handleDragEnd (cache : Option CandidatesResponse) (activeId : String)
    (over : Option CandidateStage) : Option CandidatesResponse :=
  match over with
  | none => cache
  | some newStage =>
    match (cachedData cache).find? (fun c => c.id == activeId) with
    | none => cache
    | some candidate =>
      if candidate.stage != newStage then (kanbanOnMutate cache activeId newStage).1
      else cache

/-! ### Claim C2 -/

/-- C2: whatever the cache held before the drag, a failed stage-change
mutation ends with the candidates cache exactly equal to the pre-mutation
snapshot — every candidate's stage and every other field is restored. -/
theorem kanban_failed_mutation_restores_cache (cache : Option CandidatesResponse)
    (id : String) (stage : CandidateStage) :
    kanbanStageChangeFailFlow cache id stage = cache := by
  unfold kanbanStageChangeFailFlow kanbanOnMutate kanbanOnError
  cases cache <;> rfl

/-! ### Claim C6 -/

/-- C6: the drag handler issues no cache change when the drop is outside any
column, when the dragged id is not in the cache, or when the target stage
equals the candidate's current stage; otherwise the cache's `data` is mapped
by `applyStageUpdateOne`, which rewrites exactly the `stage` field of the
candidates whose id matches and fixes every other candidate and field. -/
theorem kanban_dragEnd_frame (cache : Option CandidatesResponse) (activeId : String)
    (over : Option CandidateStage) :
    (over = none → handleDragEnd cache activeId over = cache) ∧
    (∀ st, over = some st → cache = none → handleDragEnd cache activeId over = none) ∧
    (∀ st d, over = some st → cache = some d →
      (d.data.find? (fun c => c.id == activeId) = none →
        handleDragEnd cache activeId over = cache) ∧
      (∀ cand, d.data.find? (fun c => c.id == activeId) = some cand →
        (cand.stage = st → handleDragEnd cache activeId over = cache) ∧
        (cand.stage ≠ st →
          handleDragEnd cache activeId over =
            some { d with data := applyStageUpdate d.data activeId st }))) ∧
    (∀ (c : Candidate) (st : CandidateStage), (c.id == activeId) = false →
      applyStageUpdateOne activeId st c = c) ∧
    (∀ (c : Candidate) (st : CandidateStage), (c.id == activeId) = true →
      applyStageUpdateOne activeId st c = { c with stage := st }) := by
  refine ⟨?_, ?_, ?_, ?_, ?_⟩
  · intro h; subst h; rfl
  · intro st hover hcache; subst hover; subst hcache; rfl
  · intro st d hover hcache
    subst hover; subst hcache
    constructor
    · intro hfind
      show (match (cachedData (some d)).find? (fun c => c.id == activeId) with
        | none => some d
        | some candidate =>
          if candidate.stage != st then (kanbanOnMutate (some d) activeId st).1
          else some d) = some d
      rw [show cachedData (some d) = d.data from rfl, hfind]
    · intro cand hfind
      constructor
      · intro hsame
        show (match (cachedData (some d)).find? (fun c => c.id == activeId) with
          | none => some d
          | some candidate =>
            if candidate.stage != st then (kanbanOnMutate (some d) activeId st).1
            else some d) = some d
        rw [show cachedData (some d) = d.data from rfl, hfind]
        simp [hsame]
      · intro hdiff
        have hb : (cand.stage != st) = true := bne_iff_ne.mpr hdiff
        show (match (cachedData (some d)).find? (fun c => c.id == activeId) with
          | none => some d
          | some candidate =>
            if candidate.stage != st then (kanbanOnMutate (some d) activeId st).1
            else some d) =
          some { d with data := applyStageUpdate d.data activeId st }
        rw [show cachedData (some d) = d.data from rfl, hfind]
        simp only [hb, if_true]
        rfl
  · intro c st h
    unfold applyStageUpdateOne
    simp [h]
  · intro c st h
    unfold applyStageUpdateOne
    simp [h]

/-- Concrete candidates for the kanban witnesses. -/
def kbCand1 : Candidate :=
  { id := "c1", name := "Ada Lovelace", email := "ada@example.com", phone := "1",
    jobId := "j1", stage := .applied, resume := "r", notes := [],
    createdAt := 0, updatedAt := 0 }

/-- Second concrete candidate for the kanban witnesses. -/
def kbCand2 : Candidate :=
  { id := "c2", name := "Grace Hopper", email := "grace@example.com", phone := "2",
    jobId := "j1", stage := .screen, resume := "r", notes := [],
    createdAt := 0, updatedAt := 0 }

/-- Concrete cached response for the kanban witnesses. -/
def kbCache : CandidatesResponse := { data := [kbCand1, kbCand2], total := 2 }

/-- Witness for C6 at concrete inputs: dropping `c1` on its own column leaves
the cache unchanged, dropping it on the `tech` column rewrites exactly its
stage, and the bystander `c2` is untouched by the update function. -/
theorem kanban_dragEnd_frame_witness :
    handleDragEnd (some kbCache) "c1" none = some kbCache ∧
    handleDragEnd (some kbCache) "c1" (some .applied) = some kbCache ∧
    handleDragEnd (some kbCache) "missing" (some .tech) = some kbCache ∧
    handleDragEnd (some kbCache) "c1" (some .tech) =
      some { kbCache with data := applyStageUpdate kbCache.data "c1" .tech } ∧
    applyStageUpdateOne "c1" .tech kbCand2 = kbCand2 ∧
    applyStageUpdateOne "c1" .tech kbCand1 = { kbCand1 with stage := .tech } :=
  ⟨(kanban_dragEnd_frame (some kbCache) "c1" none).1 rfl,
   (((kanban_dragEnd_frame (some kbCache) "c1" (some .applied)).2.2.1 .applied kbCache
      rfl rfl).2 kbCand1 (by decide)).1 rfl,
   ((kanban_dragEnd_frame (some kbCache) "missing" (some .tech)).2.2.1 .tech kbCache
      rfl rfl).1 (by decide),
   (((kanban_dragEnd_frame (some kbCache) "c1" (some .tech)).2.2.1 .tech kbCache
      rfl rfl).2 kbCand1 (by decide)).2 (by decide),
   (kanban_dragEnd_frame (some kbCache) "c1" (some .tech)).2.2.2.1 kbCand2 .tech
      (by decide),
   (kanban_dragEnd_frame (some kbCache) "c1" (some .tech)).2.2.2.2 kbCand1 .tech
      (by decide)⟩

/-! ### Claim C7: client-side candidate filtering (`CandidatesPage`) -/

/-- The search predicate of `filteredCandidates` (CandidatesPage): the
lowercased name or email contains the lowercased search string. -/
def candidateMatchesSearch (searchLower : String) (c : Candidate) : Bool :=
  jsIncludes (strLower c.name) searchLower || jsIncludes (strLower c.email) searchLower

/-- `filteredCandidates` of `CandidatesPage` (the `useMemo` body): the search
filter runs first when the search string is truthy, then the stage filter
when the stage filter is truthy and not `"all"`. -/
def filteredCandidates (data : List Candidate) (search : String)
    (stageFilter : String) : List Candidate :=
  let afterSearch :=
    if search != "" then data.filter (candidateMatchesSearch (strLower search))
    else data
  if stageFilter != "" && stageFilter != "all" then
    afterSearch.filter (fun c => stageToString c.stage == stageFilter)
  else afterSearch

/-- The membership predicate claim C7 describes: the candidate passes the
(conditional) search test and the (conditional) stage test. -/
def matchesClaimC7 (search stageFilter : String) (c : Candidate) : Bool :=
  (search == "" ||
      (jsIncludes (strLower c.name) (strLower search) ||
        jsIncludes (strLower c.email) (strLower search))) &&
    (stageFilter == "" || stageFilter == "all" || stageToString c.stage == stageFilter)

/-- Fusion of two successive `List.filter` passes. -/
theorem filter_filter_and {α : Type} (l : List α) (p q : α → Bool) :
    (l.filter p).filter q = l.filter (fun a => p a && q a) := by
  induction l with
  | nil => rfl
  | cons a t ih =>
    by_cases hp : p a = true
    · by_cases hq : q a = true
      · simp [List.filter_cons, hp, hq, ih]
      · simp [List.filter_cons, hp, Bool.eq_false_iff.mpr hq, ih]
    · simp [List.filter_cons, Bool.eq_false_iff.mpr hp, ih]

/-- C7: the filtered candidates list is exactly the order-preserving sublist
of candidates matching the conjunction of the search and stage predicates,
and with an empty search string and no stage filter the whole list is
returned. -/
theorem filteredCandidates_eq_filter (data : List Candidate) (search stageFilter : String) :
    filteredCandidates data search stageFilter =
        data.filter (matchesClaimC7 search stageFilter) ∧
      (filteredCandidates data search stageFilter).Sublist data ∧
      filteredCandidates data "" "" = data := by
  refine ⟨?_, ?_, ?_⟩
  · unfold filteredCandidates matchesClaimC7 candidateMatchesSearch
    cases hP : (search == "") with
    | true =>
      have hPn : (search != "") = false := by simp [bne, hP]
      cases h1 : (stageFilter == "") with
      | true =>
        have hQ : (stageFilter != "" && stageFilter != "all") = false := by
          simp [bne, h1]
        simp [hPn, hQ, hP, h1]
      | false =>
        cases h2 : (stageFilter == "all") with
        | true =>
          have hQ : (stageFilter != "" && stageFilter != "all") = false := by
            simp [bne, h2]
          simp [hPn, hQ, hP, h1, h2]
        | false =>
          have hQ : (stageFilter != "" && stageFilter != "all") = true := by
            simp [bne, h1, h2]
          simp [hPn, hQ, hP, h1, h2]
    | false =>
      have hPn : (search != "") = true := by simp [bne, hP]
      cases h1 : (stageFilter == "") with
      | true =>
        have hQ : (stageFilter != "" && stageFilter != "all") = false := by
          simp [bne, h1]
        simp [hPn, hQ, hP, h1]
      | false =>
        cases h2 : (stageFilter == "all") with
        | true =>
          have hQ : (stageFilter != "" && stageFilter != "all") = false := by
            simp [bne, h2]
          simp [hPn, hQ, hP, h1, h2]
        | false =>
          have hQ : (stageFilter != "" && stageFilter != "all") = true := by
            simp [bne, h1, h2]
          simp only [hPn, hQ, if_true]
          rw [filter_filter_and]
          simp [hP, h1, h2]
  · unfold filteredCandidates
    cases hP : (search != "") <;>
      cases hQ : (stageFilter != "" && stageFilter != "all") <;>
      first
        | exact List.Sublist.refl data
        | exact List.filter_sublist _
        | exact (List.filter_sublist _).trans (List.filter_sublist _)
  · rfl

/-! ### Jobs: data model (`src/types/index.ts`) -/

/-- The job status union type. -/
inductive JobStatus where
  | active : JobStatus
  | archived : JobStatus
deriving DecidableEq, Repr

/-- A job posting (`Job` in `src/types/index.ts`); dates are integer
timestamps. -/
structure Job where
  id : String
  title : String
  slug : String
  status : JobStatus
  tags : List String
  order : Nat
  description : String
  department : String
  createdAt : Int
  updatedAt : Int
deriving DecidableEq, Repr

/-! ### Jobs list: drag reorder and its failure path (`JobsPage`) -/

/-- dnd-kit's `arrayMove`: the element at `i` is removed and re-inserted at
`j` (clamped to the remaining length, as `splice` clamps); an out-of-range
source index leaves the list unchanged. -/
def arrayMove {α : Type} (l : List α) (i j : Nat) : List α :=
  match l.get? i with
  | none => l
  | some x => (l.eraseIdx i).insertIdx (min j (l.length - 1)) x

/-- Result of an MSW handler: the HTTP status and the optional `field` of the
error payload. -/
structure HandlerResult where
  status : Nat
  errorField : Option String := none
deriving DecidableEq, Repr

/-- The `PATCH /api/jobs/:id/reorder` handler (`handlers.ts` lines 140-165)
over an abstract store `σ`: when the simulated-failure branch (10%) is taken
the handler answers 500 before reading the request body and before calling
`dbHelpers.reorderJobs`, so the store is untouched; otherwise the reorder
helper runs (a parameter, since the failure-path claims hold for any reorder
helper, the real `dbHelpers.reorderJobs` of `src/lib/db.ts` included).
-/
def reorderJobsHandler {σ : Type} (reorderJobs : σ → Nat → Nat → σ)
    (simErr : Bool) (store : σ) (fromOrder toOrder : Nat) : HandlerResult × σ :=
  if simErr then ({ status := 500 }, store)
  else ({ status := 200 }, reorderJobs store fromOrder toOrder)

/-- The failed-reorder flow of `JobsPage.handleDragEnd` plus
`reorderMutation.onError` (part_001 lines 219-256): the cached page is
optimistically rearranged with `arrayMove`, the PATCH takes the simulated
error branch, and `onError` calls `invalidateQueries(["jobs"])` — there is no
snapshot/restore — so the active jobs query refetches from the store.
Returns the final cache paired with the final store. -/
def jobsReorderFailFlow {σ : Type} (reorderJobs : σ → Nat → Nat → σ)
    (fetchJobs : σ → List Job) (store : σ) (cache : List Job)
    (oldIndex newIndex : Nat) : List Job × σ :=
  let _optimistic := arrayMove cache oldIndex newIndex
  let result := reorderJobsHandler reorderJobs true store oldIndex newIndex
  (fetchJobs result.2, result.2)

/-! ### MSW write handlers with simulated errors (`handlers.ts`) -/

/-- A note row of the `db.notes` table, as the note handler constructs it
(`handlers.ts` lines 368-376). -/
structure DbNote where
  id : String
  candidateId : String
  content : String
  mentions : List String
  authorId : String
  authorName : String
  createdAt : Int
deriving DecidableEq, Repr

/-- The client-side persistent store: the Dexie tables the handlers touch. -/
structure Store where
  jobs : List Job
  candidates : List Candidate
  notes : List DbNote
  assessments : List Assessment
  responses : List SubmitPayload

/-- The body of `POST /api/jobs`
(`Omit<Job, "id" | "createdAt" | "updatedAt">`). -/
structure JobBody where
  title : String
  slug : String
  status : JobStatus
  tags : List String
  order : Nat
  description : String
  department : String
deriving DecidableEq, Repr

/-- The body of `PATCH /api/jobs/:id` (`Partial<Job>`), restricted to the
fields the application patches. -/
structure JobUpdate where
  title : Option String := none
  slug : Option String := none
  status : Option JobStatus := none
  tags : Option (List String) := none
  order : Option Nat := none
  description : Option String := none
  department : Option String := none
deriving DecidableEq, Repr

/-- `POST /api/jobs` (`handlers.ts` lines 63-96): simulated error, then the
slug-uniqueness check against the store, then the create helper (a parameter
here; the slug-uniqueness claim instantiates it with the embedding of
`dbHelpers.createJob`). -/
def postJobsHandler (createJob : Store → JobBody → Store) (simErr : Bool)
    (store : Store) (body : JobBody) : HandlerResult × Store :=
  if simErr then ({ status := 500 }, store)
  else if (store.jobs.find? (fun j => j.slug == body.slug)).isSome then
    ({ status := 400, errorField := some "slug" }, store)
  else ({ status := 201 }, createJob store body)

/-- `PATCH /api/jobs/:id` (`handlers.ts` lines 99-137): simulated error,
then — only when the updated slug is truthy, i.e. present and non-empty —
the uniqueness check against every job other than the one being updated,
then the update helper (a parameter). -/
def patchJobHandler (updateJob : Store → String → JobUpdate → Store)
    (simErr : Bool) (store : Store) (id : String) (updates : JobUpdate) :
    HandlerResult × Store :=
  if simErr then ({ status := 500 }, store)
  else
    match updates.slug with
    | some s =>
      if s != "" then
        if (store.jobs.find? (fun j => j.slug == s && j.id != id)).isSome then
          ({ status := 400, errorField := some "slug" }, store)
        else ({ status := 200 }, updateJob store id updates)
      else ({ status := 200 }, updateJob store id updates)
    | none => ({ status := 200 }, updateJob store id updates)

/-- `DELETE /api/jobs/:id` (`handlers.ts` lines 168-189): simulated error,
then the direct Dexie primary-key delete. -/
def deleteJobHandler (simErr : Bool) (store : Store) (id : String) :
    HandlerResult × Store :=
  if simErr then ({ status := 500 }, store)
  else ({ status := 200 },
    { store with jobs := store.jobs.filter (fun j => !(j.id == id)) })

/-- `POST /api/candidates` (`handlers.ts` lines 241-262): simulated error,
then the create helper (a parameter; the body is typed `any`). -/
def postCandidatesHandler (β : Type) (createCandidate : Store → β → Store)
    (simErr : Bool) (store : Store) (body : β) : HandlerResult × Store :=
  if simErr then ({ status := 500 }, store)
  else ({ status := 201 }, createCandidate store body)

/-- The body of `PATCH /api/candidates/:id`, restricted to the fields the
application patches. -/
structure CandidateUpdate where
  stage : Option CandidateStage := none
  name : Option String := none
  email : Option String := none
  phone : Option String := none
deriving DecidableEq, Repr

/-- Application of a non-stage candidate patch plus the `updatedAt` touch of
the direct `db.candidates.update` branch. -/
def applyCandidateUpdate (c : Candidate) (u : CandidateUpdate) (now : Int) :
    Candidate :=
  { c with
    stage := u.stage.getD c.stage
    name := u.name.getD c.name
    email := u.email.getD c.email
    phone := u.phone.getD c.phone
    updatedAt := now }

/-- `PATCH /api/candidates/:id` (`handlers.ts` lines 265-301): simulated
error, then either the stage helper (a parameter) when `updates.stage` is
truthy, or the direct Dexie update. -/
def patchCandidateHandler (updateCandidateStage : Store → String → CandidateStage → Store)
    (simErr : Bool) (store : Store) (id : String) (updates : CandidateUpdate)
    (now : Int) : HandlerResult × Store :=
  if simErr then ({ status := 500 }, store)
  else
    match updates.stage with
    | some st => ({ status := 200 }, updateCandidateStage store id st)
    | none =>
      ({ status := 200 },
        { store with
          candidates := store.candidates.map
            (fun c => if c.id == id then applyCandidateUpdate c updates now else c) })

/-- A character of a JS `\w` class: alphanumeric or underscore (ASCII). -/
def isWordChar (c : Char) : Bool :=
  c.isAlphanum || c == '_'

/-- Single pass of the `content.match(/@\w+/g)` extraction followed by
`.slice(1)`: the accumulator holds the reversed characters of the mention
being read, `none` when outside a mention. -/
def mentionsAux : List Char → Option (List Char) → List String
  | [], none => []
  | [], some acc => if acc.isEmpty then [] else [String.mk acc.reverse]
  | c :: rest, none =>
    if c == '@' then mentionsAux rest (some []) else mentionsAux rest none
  | c :: rest, some acc =>
    if isWordChar c then mentionsAux rest (some (c :: acc))
    else
      (if acc.isEmpty then [] else [String.mk acc.reverse]) ++
        (if c == '@' then mentionsAux rest (some []) else mentionsAux rest none)

/-- The `@`-mention extraction of the note handler (`handlers.ts` line 366),
already stripped of the leading `@`. -/
def extractMentions (content : String) : List String :=
  mentionsAux content.data none

/-- `POST /api/candidates/:id/notes` (`handlers.ts` lines 351-392): simulated
error, then the note row is built in the handler itself and appended to
`db.notes`. -/
def postNoteHandler (simErr : Bool) (store : Store) (id content : String)
    (noteId : String) (now : Int) : HandlerResult × Store :=
  if simErr then ({ status := 500 }, store)
  else
    ({ status := 201 },
      { store with notes := store.notes ++
          [{ id := noteId, candidateId := id, content := content,
             mentions := extractMentions content, authorId := "demo-user",
             authorName := "Demo User", createdAt := now }] })

/-- `PUT /api/assessments/:jobId` (`handlers.ts` lines 414-435): simulated
error, then the save helper (a parameter; the body is typed `any`). -/
def putAssessmentHandler (β : Type) (saveAssessment : Store → β → Store)
    (simErr : Bool) (store : Store) (assessment : β) : HandlerResult × Store :=
  if simErr then ({ status := 500 }, store)
  else ({ status := 200 }, saveAssessment store assessment)

/-- `POST /api/assessments/:jobId/submit` (`handlers.ts` lines 438-459):
simulated error, then the submit helper (a parameter; the body is typed
`any`). -/
def postSubmitHandler (β : Type) (submitAssessmentResponse : Store → β → Store)
    (simErr : Bool) (store : Store) (response : β) : HandlerResult × Store :=
  if simErr then ({ status := 500 }, store)
  else ({ status := 201 }, submitAssessmentResponse store response)

/-! ### Claim C3 -/

/-- First concrete job for the C3 counterexample and witness. -/
def c3Job1 : Job :=
  { id := "j1", title := "Frontend Developer", slug := "frontend-developer",
    status := .active, tags := [], order := 0, description := "d",
    department := "Engineering", createdAt := 0, updatedAt := 0 }

/-- Second concrete job for the C3 counterexample and witness. -/
def c3Job2 : Job :=
  { id := "j2", title := "Backend Developer", slug := "backend-developer",
    status := .active, tags := [], order := 1, description := "d",
    department := "Engineering", createdAt := 0, updatedAt := 0 }

/-- C3, counterexample: the failed-reorder path performs no cache
snapshot/restore — `onError` merely invalidates the jobs query, replacing the
cache by a refetch from the store.  With the concrete store `[j1, j2]` served
as-is and a cached page `[j2, j1]` that disagrees with it, the cache after
the failed reorder is the refetched `[j1, j2]`, not the pre-drag `[j2, j1]`:
the claim that the cache returns to its pre-drag order is false as stated. -/
theorem claimC3_counterexample :
    (jobsReorderFailFlow (fun s _ _ => s) (fun s => s) [c3Job1, c3Job2]
        [c3Job2, c3Job1] 0 1).1 ≠ [c3Job2, c3Job1] := by
  decide

/-- C3 (amended): on a failed reorder request the client does not restore a
snapshot; `onError` invalidates the jobs query, so the cache becomes a
refetch from the store, which the failed handler left untouched (the
simulated-error branch answers 500 before reading the body or calling the
reorder helper).  Whenever the cached page agreed with what the store serves,
this refetch restores the pre-drag order. -/
theorem jobsReorderFail_refetches_unchanged_store {σ : Type}
    (reorderJobs : σ → Nat → Nat → σ) (fetchJobs : σ → List Job) (store : σ)
    (cache : List Job) (oldIndex newIndex : Nat) :
    jobsReorderFailFlow reorderJobs fetchJobs store cache oldIndex newIndex =
        (fetchJobs store, store) ∧
      (cache = fetchJobs store →
        (jobsReorderFailFlow reorderJobs fetchJobs store cache oldIndex newIndex).1 =
          cache) := by
  refine ⟨rfl, ?_⟩
  intro h
  rw [h]
  rfl

/-- Witness for the amended C3 at concrete inputs: with a cached page that
agrees with the store, the failed reorder ends with the pre-drag cache. -/
theorem jobsReorderFail_refetches_witness :
    (jobsReorderFailFlow (fun s _ _ => s) (fun s => s) [c3Job1, c3Job2]
        [c3Job1, c3Job2] 0 1).1 = [c3Job1, c3Job2] :=
  (jobsReorderFail_refetches_unchanged_store (fun s _ _ => s) (fun s => s)
      [c3Job1, c3Job2] [c3Job1, c3Job2] 0 1).2 rfl

/-! ### Claim C5 -/

/-- C5: every write endpoint that consults the simulated-error decision
answers 500 and leaves the store untouched when the decision is positive.
The helper functions from `src/lib/db.ts` are universally quantified, which
expresses that the error branch returns before any of them — and before the
request body — can be consumed. -/
theorem simulated_error_returns_500_and_preserves_store :
    (∀ (createJob : Store → JobBody → Store) (store : Store) (body : JobBody),
      postJobsHandler createJob true store body = ({ status := 500 }, store)) ∧
    (∀ (updateJob : Store → String → JobUpdate → Store) (store : Store)
        (id : String) (u : JobUpdate),
      patchJobHandler updateJob true store id u = ({ status := 500 }, store)) ∧
    (∀ (store : Store) (id : String),
      deleteJobHandler true store id = ({ status := 500 }, store)) ∧
    (∀ (β : Type) (createCandidate : Store → β → Store) (store : Store) (body : β),
      postCandidatesHandler β createCandidate true store body =
        ({ status := 500 }, store)) ∧
    (∀ (updateCandidateStage : Store → String → CandidateStage → Store)
        (store : Store) (id : String) (u : CandidateUpdate) (now : Int),
      patchCandidateHandler updateCandidateStage true store id u now =
        ({ status := 500 }, store)) ∧
    (∀ (store : Store) (id content noteId : String) (now : Int),
      postNoteHandler true store id content noteId now = ({ status := 500 }, store)) ∧
    (∀ (β : Type) (saveAssessment : Store → β → Store) (store : Store) (a : β),
      putAssessmentHandler β saveAssessment true store a = ({ status := 500 }, store)) ∧
    (∀ (β : Type) (submitAssessmentResponse : Store → β → Store) (store : Store)
        (r : β),
      postSubmitHandler β submitAssessmentResponse true store r =
        ({ status := 500 }, store)) :=
  ⟨fun _ _ _ => rfl, fun _ _ _ _ => rfl, fun _ _ => rfl, fun _ _ _ _ => rfl,
   fun _ _ _ _ _ => rfl, fun _ _ _ _ _ => rfl, fun _ _ _ _ => rfl,
   fun _ _ _ _ => rfl⟩

/-! ### Claim C10 -/

/-- `dbHelpers.createJob` of `src/lib/db.ts`: the request body's fields are
spread into a new row (`{ ...job, id, createdAt: now, updatedAt: now }`) —
in particular its slug — and the row is added to the jobs table.  The fresh
`crypto.randomUUID()` and the `new Date()` of the source are the parameters
`newId` and `now`. -/
def createJob (newId : String) (now : Int) (store : Store) (body : JobBody) :
    Store :=
  { store with
    jobs := store.jobs ++
      [{ id := newId
         title := body.title
         slug := body.slug
         status := body.status
         tags := body.tags
         order := body.order
         description := body.description
         department := body.department
         createdAt := now
         updatedAt := now }] }

/-- The row rewrite of `db.jobs.update(id, { ...updates, updatedAt: new
Date() })` inside `dbHelpers.updateJob`: every field the `Partial<Job>` body
defines overwrites the row's field, and `updatedAt` is touched. -/
def applyJobUpdate (j : Job) (u : JobUpdate) (now : Int) : Job :=
  { j with
    title := u.title.getD j.title
    slug := u.slug.getD j.slug
    status := u.status.getD j.status
    tags := u.tags.getD j.tags
    order := u.order.getD j.order
    description := u.description.getD j.description
    department := u.department.getD j.department
    updatedAt := now }

/-- `dbHelpers.updateJob` of `src/lib/db.ts`: `db.jobs.update` applies the
partial update to the row whose primary key equals `id` — Dexie primary keys
are unique, so rewriting every matching row of the table is the same
operation — and a missing id updates nothing. -/
def updateJob (now : Int) (store : Store) (id : String) (u : JobUpdate) :
    Store :=
  { store with
    jobs := store.jobs.map (fun j => if j.id == id then applyJobUpdate j u now else j) }

/-- Slug distinctness of a slug-rewriting update: when every store job whose
slug already equals the new slug `s` is the patched row itself, rewriting the
patched row's slug to `s` keeps the slug column duplicate-free. -/
theorem nodup_slugs_after_slug_update (u : JobUpdate) (now : Int) (s pid : String)
    (hu : u.slug = some s) :
    ∀ (l : List Job),
      (l.map (fun j => j.id)).Nodup →
      (l.map (fun j => j.slug)).Nodup →
      (∀ j ∈ l, j.slug = s → j.id = pid) →
      ((l.map (fun j => if j.id == pid then applyJobUpdate j u now else j)).map
          (fun j => j.slug)).Nodup := by
  have hslug_upd : ∀ j : Job, (applyJobUpdate j u now).slug = s := by
    intro j
    simp [applyJobUpdate, hu]
  intro l
  induction l with
  | nil => intro _ _ _; simp
  | cons j t ih =>
    intro hids hslugs hmem
    simp only [List.map_cons, List.nodup_cons] at hids hslugs
    obtain ⟨hidj, hidst⟩ := hids
    obtain ⟨hslugj, hslugst⟩ := hslugs
    simp only [List.map_cons, List.nodup_cons]
    constructor
    · intro hin
      rw [List.map_map, List.mem_map] at hin
      obtain ⟨x, hxmem, hxeq⟩ := hin
      simp only [Function.comp] at hxeq
      by_cases hj : (j.id == pid) = true
      · by_cases hx : (x.id == pid) = true
        · exact hidj (List.mem_map.mpr ⟨x, hxmem, (eq_of_beq hx).trans (eq_of_beq hj).symm⟩)
        · have hxs : (if x.id == pid then applyJobUpdate x u now else x).slug = x.slug := by
            simp [hx]
          have hjs : (if j.id == pid then applyJobUpdate j u now else j).slug = s := by
            simp [hj, hslug_upd]
          rw [hxs, hjs] at hxeq
          have hxid : x.id = pid := hmem x (List.mem_cons_of_mem j hxmem) hxeq
          rw [hxid] at hx
          exact hx (by simp)
      · have hjs : (if j.id == pid then applyJobUpdate j u now else j).slug = j.slug := by
          simp [hj]
        by_cases hx : (x.id == pid) = true
        · have hxs : (if x.id == pid then applyJobUpdate x u now else x).slug = s := by
            simp [hx, hslug_upd]
          rw [hxs, hjs] at hxeq
          have hjid : j.id = pid := hmem j (List.mem_cons_self j t) hxeq.symm
          rw [hjid] at hj
          exact hj (by simp)
        · have hxs : (if x.id == pid then applyJobUpdate x u now else x).slug = x.slug := by
            simp [hx]
          rw [hxs, hjs] at hxeq
          exact hslugj (List.mem_map.mpr ⟨x, hxmem, hxeq⟩)
    · exact ih hidst hslugst fun x hx hsx => hmem x (List.mem_cons_of_mem j hx) hsx

/-- C10 (amended): at the API boundary, `POST /api/jobs` rejects a duplicate
slug with 400 / field `slug` and an untouched store, and otherwise preserves
slug distinctness; `PATCH /api/jobs/:id` rejects a colliding non-empty slug
update with 400 / field `slug` and an untouched store, and preserves slug
distinctness for every update whose slug field is absent or non-empty.  (An
update to the empty slug bypasses the check — see the counterexample.) -/
theorem slug_uniqueness_at_api_boundary (store : Store) (body : JobBody)
    (u : JobUpdate) (id newId : String) (now : Int) :
    ((store.jobs.find? (fun j => j.slug == body.slug)).isSome = true →
      postJobsHandler (createJob newId now) false store body =
        ({ status := 400, errorField := some "slug" }, store)) ∧
    ((store.jobs.map (fun j => j.slug)).Nodup →
      ((postJobsHandler (createJob newId now) false store body).2.jobs.map
        (fun j => j.slug)).Nodup) ∧
    (∀ s, u.slug = some s → s ≠ "" →
      (store.jobs.find? (fun j => j.slug == s && j.id != id)).isSome = true →
      patchJobHandler (updateJob now) false store id u =
        ({ status := 400, errorField := some "slug" }, store)) ∧
    ((store.jobs.map (fun j => j.id)).Nodup →
      (store.jobs.map (fun j => j.slug)).Nodup →
      (u.slug = none ∨ ∃ s, u.slug = some s ∧ s ≠ "") →
      ((patchJobHandler (updateJob now) false store id u).2.jobs.map
        (fun j => j.slug)).Nodup) := by
  have hcreate : (createJob newId now store body).jobs.map (fun j => j.slug) =
      store.jobs.map (fun j => j.slug) ++ [body.slug] := by
    simp [createJob]
  have hupdate_slugs : u.slug = none →
      (updateJob now store id u).jobs.map (fun j => j.slug) =
        store.jobs.map (fun j => j.slug) := by
    intro hu
    show (store.jobs.map fun j =>
      if j.id == id then applyJobUpdate j u now else j).map (fun j => j.slug) = _
    rw [List.map_map]
    refine List.map_congr_left ?_
    intro j _
    by_cases hj : (j.id == id) = true
    · simp [Function.comp, hj, applyJobUpdate, hu]
    · simp [Function.comp, hj]
  refine ⟨?_, ?_, ?_, ?_⟩
  · intro h
    unfold postJobsHandler
    rw [h]
    rfl
  · intro hnodup
    cases hf : (store.jobs.find? (fun j => j.slug == body.slug)).isSome with
    | true =>
      have : postJobsHandler (createJob newId now) false store body =
          ({ status := 400, errorField := some "slug" }, store) := by
        unfold postJobsHandler
        rw [hf]
        rfl
      rw [this]
      exact hnodup
    | false =>
      have hnone : store.jobs.find? (fun j => j.slug == body.slug) = none := by
        cases hfind : store.jobs.find? (fun j => j.slug == body.slug) with
        | none => rfl
        | some v => rw [hfind] at hf; simp at hf
      have hnotin : ∀ j ∈ store.jobs, ¬((j.slug == body.slug) = true) :=
        List.find?_eq_none.mp hnone
      have hpost : postJobsHandler (createJob newId now) false store body =
          ({ status := 201 }, createJob newId now store body) := by
        unfold postJobsHandler
        rw [hf]
        rfl
      rw [hpost]
      show ((createJob newId now store body).jobs.map (fun j => j.slug)).Nodup
      rw [hcreate, List.nodup_append]
      refine ⟨hnodup, List.nodup_singleton _, ?_⟩
      intro a ha hb
      rw [List.mem_map] at ha
      obtain ⟨j, hjmem, hjeq⟩ := ha
      rw [List.mem_singleton] at hb
      exact hnotin j hjmem (beq_iff_eq.mpr (hjeq.trans hb))
  · intro s hus hs hfind
    unfold patchJobHandler
    rw [hus]
    show (if (s != "") = true then _ else _) = _
    rw [bne_iff_ne.mpr hs]
    show (if (store.jobs.find? (fun j => j.slug == s && j.id != id)).isSome = true
      then _ else _) = _
    rw [hfind]
    rfl
  · intro hids hslugs hcase
    rcases hcase with hu | ⟨s, hu, hs⟩
    · have hpatch : patchJobHandler (updateJob now) false store id u =
          ({ status := 200 }, updateJob now store id u) := by
        unfold patchJobHandler
        rw [hu]
        rfl
      rw [hpatch]
      show ((updateJob now store id u).jobs.map (fun j => j.slug)).Nodup
      rw [hupdate_slugs hu]
      exact hslugs
    · cases hf : (store.jobs.find? (fun j => j.slug == s && j.id != id)).isSome with
      | true =>
        have hpatch : patchJobHandler (updateJob now) false store id u =
            ({ status := 400, errorField := some "slug" }, store) := by
          unfold patchJobHandler
          rw [hu]
          show (if (s != "") = true then _ else _) = _
          rw [bne_iff_ne.mpr hs]
          show (if (store.jobs.find? (fun j => j.slug == s && j.id != id)).isSome = true
            then _ else _) = _
          rw [hf]
          rfl
        rw [hpatch]
        exact hslugs
      | false =>
        have hnone : store.jobs.find? (fun j => j.slug == s && j.id != id) = none := by
          cases hfind : store.jobs.find? (fun j => j.slug == s && j.id != id) with
          | none => rfl
          | some v => rw [hfind] at hf; simp at hf
        have hnotin : ∀ j ∈ store.jobs, ¬((j.slug == s && j.id != id) = true) :=
          List.find?_eq_none.mp hnone
        have hmem : ∀ j ∈ store.jobs, j.slug = s → j.id = id := by
          intro j hj hslug
          have h1 := hnotin j hj
          rw [Bool.and_eq_true, not_and] at h1
          have h2 := h1 (beq_iff_eq.mpr hslug)
          rw [Bool.not_eq_true] at h2
          simpa [bne] using h2
        have hpatch : patchJobHandler (updateJob now) false store id u =
            ({ status := 200 }, updateJob now store id u) := by
          unfold patchJobHandler
          rw [hu]
          show (if (s != "") = true then _ else _) = _
          rw [bne_iff_ne.mpr hs]
          show (if (store.jobs.find? (fun j => j.slug == s && j.id != id)).isSome = true
            then _ else _) = _
          rw [hf]
          rfl
        rw [hpatch]
        show ((updateJob now store id u).jobs.map (fun j => j.slug)).Nodup
        unfold updateJob
        exact nodup_slugs_after_slug_update u now s id hu store.jobs hids hslugs hmem

/-- Concrete job with a normal slug for the C10 scenarios. -/
def c10JobA : Job :=
  { id := "a", title := "Senior Engineer", slug := "senior-engineer",
    status := .active, tags := [], order := 0, description := "d",
    department := "Engineering", createdAt := 0, updatedAt := 0 }

/-- Concrete job whose slug is the empty string (created from a title with no
alphanumeric characters, which the slug generator maps to `""`). -/
def c10JobB : Job :=
  { id := "b", title := "!!!", slug := "",
    status := .active, tags := [], order := 1, description := "d",
    department := "Engineering", createdAt := 0, updatedAt := 0 }

/-- Concrete store for the C10 counterexample. -/
def c10Store : Store :=
  { jobs := [c10JobA, c10JobB], candidates := [], notes := [],
    assessments := [], responses := [] }

/-- The empty-slug patch body of the C10 counterexample. -/
def c10EmptySlugUpdate : JobUpdate := { slug := some "" }

/-- C10, counterexample: the slugs of the store are distinct, yet patching
job `a` with the empty slug succeeds (HTTP 200) although job `b` already has
slug `""`:  `if (updates.slug)` is falsy for the empty string, so the
uniqueness check is skipped and the update leaves two jobs with slug `""` —
a successful update that introduces a duplicate slug. -/
theorem claimC10_counterexample :
    (c10Store.jobs.map (fun j => j.slug)).Nodup ∧
      (patchJobHandler (updateJob 0) false c10Store "a"
        c10EmptySlugUpdate).1.status = 200 ∧
      ¬ ((patchJobHandler (updateJob 0) false c10Store "a"
        c10EmptySlugUpdate).2.jobs.map (fun j => j.slug)).Nodup :=
  ⟨by decide, by rfl, by decide⟩

/-- Concrete second store for the C10 witness: two jobs with distinct ids and
slugs. -/
def c10Store2 : Store :=
  { jobs := [c10JobA,
      { id := "b2", title := "Designer", slug := "designer", status := .active,
        tags := [], order := 1, description := "d", department := "Design",
        createdAt := 0, updatedAt := 0 }],
    candidates := [], notes := [], assessments := [], responses := [] }

/-- The POST body of the C10 witness, colliding with `c10JobA`'s slug. -/
def c10Body : JobBody :=
  { title := "Senior Engineer II", slug := "senior-engineer", status := .active,
    tags := [], order := 2, description := "d", department := "Engineering" }

/-- The colliding non-empty slug patch of the C10 witness. -/
def c10SlugUpdate : JobUpdate := { slug := some "designer" }

/-- Witness for the amended C10 at concrete inputs: the duplicate POST is
rejected with the store untouched, a non-colliding POST keeps slugs distinct,
the colliding non-empty PATCH is rejected with the store untouched, and a
non-empty PATCH that passes the check keeps slugs distinct. -/
theorem slug_uniqueness_witness :
    postJobsHandler (createJob "new" 0) false c10Store2 c10Body =
        ({ status := 400, errorField := some "slug" }, c10Store2) ∧
      ((postJobsHandler (createJob "new" 0) false c10Store2
        { c10Body with slug := "fresh-slug" }).2.jobs.map (fun j => j.slug)).Nodup ∧
      patchJobHandler (updateJob 0) false c10Store2 "a" c10SlugUpdate =
        ({ status := 400, errorField := some "slug" }, c10Store2) ∧
      ((patchJobHandler (updateJob 0) false c10Store2 "a"
        { slug := some "fresh-slug" }).2.jobs.map (fun j => j.slug)).Nodup :=
  ⟨(slug_uniqueness_at_api_boundary c10Store2 c10Body c10SlugUpdate "a" "new" 0).1
      (by decide),
   (slug_uniqueness_at_api_boundary c10Store2 { c10Body with slug := "fresh-slug" }
      c10SlugUpdate "a" "new" 0).2.1 (by decide),
   (slug_uniqueness_at_api_boundary c10Store2 c10Body c10SlugUpdate "a" "new" 0).2.2.1
      "designer" rfl (by decide) (by decide),
   (slug_uniqueness_at_api_boundary c10Store2 c10Body { slug := some "fresh-slug" }
      "a" "new" 0).2.2.2 (by decide) (by decide)
      (Or.inr ⟨"fresh-slug", rfl, by decide⟩)⟩

end Talentflow
